import Mathlib

/-!
Verification of the images-gen Cloudflare worker (src/images-gen/src/index.ts).

The worker inlines all of its logic in index.ts ("No imports for now - inline
everything (including unified processor)"), so the route `/images/generate` is
served by the inline functions `processUnifiedImageRequest`,
`processOriginalImageWithLogging`, `processAIGenerationWithLogging`,
`generateImage` (legacy chain) and `storeImageInR2` of index.ts.  The service
modules under src/services are unimported duplicates.  This file is a shallow
embedding of those inline functions: network calls (source download, provider
HTTP calls, R2 writes) are abstracted as oracle outcomes, and every JS
truthiness test on an optional string field is modelled explicitly.
-/

namespace ImagesGen

/-- JS truthiness of an optional string field (`undefined` and `""` are falsy). -/
def truthy : Option String → Bool
  | some s => s != ""
  | none => false

/-- Request body of POST /images/generate (interface GenerateImageRequest). -/
structure GenerateImageRequest where
  imageUrl : Option String := none
  prompt : Option String := none
  provider : Option String := none
  articleId : Option String := none
deriving Repr, DecidableEq

/-- index.ts:27 — the constant emergency fallback image URL
(`DEFAULT_FALLBACK_IMAGE`), used as `config.defaults.imageUrl` by
`getDefaultConfig()`, which is what the route passes to the processor. -/
def DEFAULT_FALLBACK_IMAGE : String :=
  "https://via.placeholder.com/1024x768/4A90E2/FFFFFF?text=Default+Image"

/-- Result of one `generateWithReplicate` / `generateWithFal` /
`generateWithUnsplash` call (the adapters catch internally and always return
an object of this shape; a timeout of the surrounding `Promise.race` is
modelled as `success := false`). -/
structure ProviderResult where
  success : Bool
  url : String := ""
  provider : String := ""
  error : Option String := none
deriving Repr, DecidableEq

/-- Mocked outcomes of the three provider adapters for one request. -/
structure ProvEnv where
  replicate : ProviderResult
  fal : ProviderResult
  unsplash : ProviderResult
deriving Repr

/-- Outcome of the source-URL download-and-validate step of
`processOriginalImageWithLogging` (index.ts:1200-1326): either the fetch
succeeded and passed the content-type and size checks (carrying the possibly
redirected `response.url`), or some check failed / the fetch threw. -/
inductive DownloadOutcome where
  | ok (finalUrl : String)
  | fail (errMsg : String)
deriving Repr, DecidableEq

/-- Outcome of one `storeImageInR2` call: the returned access URL, or the
error message of the exception it threw. -/
inductive StoreOutcome where
  | ok (r2Url : String)
  | fail (errMsg : String)
deriving Repr, DecidableEq

/-- Environment oracles for one run of the unified processor:
`urlFormatOk` models whether `new URL(request.imageUrl)` succeeds,
`download` the source-URL fetch, `providers` the three adapters, and
`storage` the single `storeImageInR2` call of the unified path. -/
structure Oracles where
  urlFormatOk : Bool := true
  download : DownloadOutcome := .fail "not fetched"
  providers : ProvEnv
  storage : StoreOutcome := .fail "not stored"

/-- The intermediate `result` object threaded through
`processUnifiedImageRequest` (index.ts:1097-1139). Optional fields model JS
`undefined`. -/
structure ImageProcessingResult where
  success : Bool
  source : String
  url : String
  originalUrl : Option String := none
  usedPrompt : Option String := none
  error : Option String := none
  r2Stored : Option Bool := none
  r2Error : Option String := none
deriving Repr, DecidableEq

/-- index.ts:1200-1326 `processOriginalImageWithLogging`: validate and download
the caller-supplied URL; on success `url` is `response.url || imageUrl`. -/
def processOriginalImageWithLogging (imageUrl : String) (dl : DownloadOutcome) :
    ImageProcessingResult :=
  match dl with
  | .ok finalUrl =>
      { success := true, source := "original",
        url := if finalUrl = "" then imageUrl else finalUrl,
        originalUrl := some imageUrl }
  | .fail e =>
      { success := false, source := "original", url := "",
        originalUrl := some imageUrl, error := some e }

/-- The provider chain of `processAIGenerationWithLogging`
(index.ts:1340-1450).  With a provider hint the switch invokes exactly one
adapter (unknown names default to Unsplash).  Without a hint the chain tries
Replicate, then Fal, then Unsplash, stopping at the first `success`; if all
three fail the result is the hard-coded emergency object of
index.ts:1442-1446.  The first component records the adapters invoked, in
order, together with the prompt passed to them (`request.prompt`). -/
def aiProviderChain (req : GenerateImageRequest) (env : ProvEnv) :
    List (String × Option String) × ProviderResult :=
  match req.provider with
  | some p =>
      match p with
      | "replicate" => ([("replicate", req.prompt)], env.replicate)
      | "fal" => ([("fal", req.prompt)], env.fal)
      | "unsplash" => ([("unsplash", req.prompt)], env.unsplash)
      | _ => ([("unsplash", req.prompt)], env.unsplash)
  | none =>
      if env.replicate.success then
        ([("replicate", req.prompt)], env.replicate)
      else if env.fal.success then
        ([("replicate", req.prompt), ("fal", req.prompt)], env.fal)
      else if env.unsplash.success then
        ([("replicate", req.prompt), ("fal", req.prompt), ("unsplash", req.prompt)],
          env.unsplash)
      else
        ([("replicate", req.prompt), ("fal", req.prompt), ("unsplash", req.prompt)],
          { success := false, provider := "emergency-fallback",
            error := some "All AI providers failed" })

/-- index.ts:1452-1507, the tail of `processAIGenerationWithLogging`: wrap the
chain outcome into the intermediate result; on success `source` is the
winning adapter's `provider` field, on failure `source` is
`"emergency-fallback"` and `url` is `''`. -/
def processAIGenerationWithLogging (req : GenerateImageRequest) (env : ProvEnv) :
    List (String × Option String) × ImageProcessingResult :=
  let c := aiProviderChain req env
  if c.2.success then
    (c.1, { success := true, source := c.2.provider, url := c.2.url,
            usedPrompt := req.prompt })
  else
    (c.1, { success := false, source := "emergency-fallback", url := "",
            usedPrompt := req.prompt, error := c.2.error })

/-- The caller-facing object built at index.ts:1142-1152 (success path) or
index.ts:1177-1190 (catch path). -/
structure FinalResult where
  url : String
  source : String
  success : Bool
  r2Stored : Bool
  error : Option String := none
  originalUrl : Option String := none
  usedPrompt : Option String := none
deriving Repr, DecidableEq

/-- index.ts:1177-1190 — the object returned when a `UnifiedImageError` is
thrown (validation errors): `url` is `config.defaults.imageUrl`. -/
def unifiedErrorResult (msg : String) : FinalResult :=
  { url := DEFAULT_FALLBACK_IMAGE, source := "emergency-fallback",
    success := false, r2Stored := false, error := some msg }

/-- Full observable outcome of one unified-processor run: the response object,
the list of provider-adapter invocations, and whether a durable R2 write
actually succeeded (the effect of `storeImageInR2` completing). -/
structure UnifiedOutcome where
  result : FinalResult
  attempts : List (String × Option String)
  storedToR2 : Bool
deriving Repr, DecidableEq

/-- index.ts:1099-1112 — the processing-strategy block: original-URL
processing first when `imageUrl` is truthy, falling back to AI generation
when it failed and `prompt` is truthy; AI generation directly otherwise. -/
def unifiedMainFlow (req : GenerateImageRequest) (o : Oracles) :
    List (String × Option String) × ImageProcessingResult :=
  if truthy req.imageUrl then
    let r0 := processOriginalImageWithLogging (req.imageUrl.getD "") o.download
    if ¬ r0.success ∧ truthy req.prompt then
      processAIGenerationWithLogging req o.providers
    else ([], r0)
  else
    processAIGenerationWithLogging req o.providers

/-- index.ts:1114-1139 — the single `storeImageInR2` attempt of the unified
path, guarded by `result.success && result.url`; the second component is
true exactly when the durable write happened. -/
def applyStorage (st : StoreOutcome) (result : ImageProcessingResult) :
    ImageProcessingResult × Bool :=
  if result.success ∧ result.url ≠ "" then
    match st with
    | .ok r2Url => ({ result with url := r2Url, r2Stored := some true }, true)
    | .fail e => ({ result with r2Stored := some false, r2Error := some e }, false)
  else (result, false)

/-- index.ts:1142-1152 — the `finalResult` object:
`url: result.url || config.defaults.imageUrl`,
`source: result.source || 'emergency-fallback'`,
`r2Stored: result.r2Stored || false`. -/
def assembleFinalResult (r : ImageProcessingResult) : FinalResult :=
  { url := if r.url = "" then DEFAULT_FALLBACK_IMAGE else r.url,
    source := if r.source = "" then "emergency-fallback" else r.source,
    success := r.success,
    r2Stored := r.r2Stored.getD false,
    error := r.error,
    originalUrl := r.originalUrl,
    usedPrompt := r.usedPrompt }

/-- `request.prompt.trim().length === 0` — the prompt trims to the empty
string exactly when every character is whitespace. -/
def promptTrimEmpty (s : String) : Bool :=
  s.data.all fun c => c.isWhitespace

/-- index.ts:1043-1197 `processUnifiedImageRequest`, as invoked by the route
with `getDefaultConfig()` (so `config.defaults.imageUrl` is
`DEFAULT_FALLBACK_IMAGE`).  Parameter validation errors throw and are caught
by the outer catch, producing `unifiedErrorResult`; otherwise the main flow,
one storage attempt and the final-result assembly run in order. -/
def processUnifiedImageRequest (req : GenerateImageRequest) (o : Oracles) :
    UnifiedOutcome :=
  if ¬ truthy req.imageUrl ∧ ¬ truthy req.prompt then
    { result := unifiedErrorResult "Either imageUrl or prompt must be provided",
      attempts := [], storedToR2 := false }
  else if truthy req.imageUrl ∧ ¬ o.urlFormatOk then
    { result := unifiedErrorResult "Invalid imageUrl format",
      attempts := [], storedToR2 := false }
  else if truthy req.prompt ∧ promptTrimEmpty (req.prompt.getD "") then
    { result := unifiedErrorResult "Prompt cannot be empty",
      attempts := [], storedToR2 := false }
  else
    let mf := unifiedMainFlow req o
    let st := applyStorage o.storage mf.2
    { result := assembleFinalResult st.1, attempts := mf.1, storedToR2 := st.2 }

/-! ## The /images/generate route decision and the legacy path -/

/-- index.ts:305-306 — the routing predicate
`body.imageUrl || (body.prompt && body.imageUrl === undefined)` deciding
whether the unified processor or the legacy logic handles the request. -/
def useUnifiedProcessor (req : GenerateImageRequest) : Bool :=
  truthy req.imageUrl || (truthy req.prompt && req.imageUrl.isNone)

/-- Which handler the /images/generate route dispatches to. -/
inductive RouteChoice where
  | unified
  | legacy
deriving Repr, DecidableEq

/-- index.ts:308-340 — dispatch of the /images/generate route body. -/
def imagesGenerateRoute (req : GenerateImageRequest) : RouteChoice :=
  if useUnifiedProcessor req then .unified else .legacy

/-- index.ts:509-591 `generateImage` (legacy chain).  With a provider hint the
switch invokes exactly one adapter (unknown names default to Unsplash).
Without a hint: Replicate (25s race), then Fal (12s race), then Unsplash,
whose result is returned as-is even on failure (`generateWithUnsplash`
catches internally and never rejects, so the emergency catch branch at
index.ts:579-589 is unreachable). -/
def legacyGenerateImage (req : GenerateImageRequest) (env : ProvEnv) :
    List (String × Option String) × ProviderResult :=
  match req.provider with
  | some p =>
      match p with
      | "replicate" => ([("replicate", req.prompt)], env.replicate)
      | "fal" => ([("fal", req.prompt)], env.fal)
      | "unsplash" => ([("unsplash", req.prompt)], env.unsplash)
      | _ => ([("unsplash", req.prompt)], env.unsplash)
  | none =>
      if env.replicate.success then
        ([("replicate", req.prompt)], env.replicate)
      else if env.fal.success then
        ([("replicate", req.prompt), ("fal", req.prompt)], env.fal)
      else
        ([("replicate", req.prompt), ("fal", req.prompt), ("unsplash", req.prompt)],
          env.unsplash)

/-- Trace of the R2 retry loop at index.ts:353-382: number of
`storeImageInR2` calls made, the backoff delays slept between failed
attempts, and the stored URL if some attempt succeeded. -/
structure RetryTrace where
  calls : Nat
  backoffs : List Nat
  url : Option String
deriving Repr, DecidableEq

/-- index.ts:358-382 — `while (attempt <= maxRetries)`: call
`storeImageInR2`; on success break; on failure sleep `300 * 2^attempt` ms
(only when `attempt < maxRetries`) and increment `attempt`.  `store i` is the
oracle outcome of the i-th call. -/
def storeRetryLoop (store : Nat → StoreOutcome) (attempt maxRetries : Nat) :
    RetryTrace :=
  match store attempt with
  | .ok u => { calls := 1, backoffs := [], url := some u }
  | .fail _ =>
      if h : attempt < maxRetries then
        let rest := storeRetryLoop store (attempt + 1) maxRetries
        { calls := rest.calls + 1,
          backoffs := 300 * 2 ^ attempt :: rest.backoffs,
          url := rest.url }
      else
        { calls := 1, backoffs := [], url := none }
termination_by maxRetries - attempt

/-- Storage-side oracles of the legacy route: outcome of the i-th primary
`storeImageInR2` call, of the `generateWithUnsplash` fallback fetch, and of
the single secondary `storeImageInR2` call on the Unsplash URL. -/
structure LegacyStoreOracles where
  primary : Nat → StoreOutcome
  unsplashFallback : ProviderResult
  secondary : StoreOutcome

/-- HTTP-level reply of the legacy /images/generate handler. -/
inductive LegacyReply where
  | ok (url : String) (provider : String) (success : Bool) (r2Stored : Bool)
  | httpError (message : String) (status : Nat)
deriving Repr, DecidableEq

/-- Full observable outcome of the legacy handler: provider invocations,
how many primary storage attempts happened, the backoffs slept, whether the
Unsplash secondary fallback was fetched, how many secondary storage attempts
happened, and the reply. -/
structure LegacyOutcome where
  attempts : List (String × Option String)
  primaryStoreCalls : Nat
  backoffs : List Nat
  fallbackUnsplashCalls : Nat
  secondaryStoreCalls : Nat
  reply : LegacyReply
deriving Repr, DecidableEq

/-- index.ts:338-408 — the legacy body of /images/generate: run the legacy
chain; if generation succeeded, retry `storeImageInR2` up to `maxRetries = 2`
(3 attempts); if still unstored, fetch one fresh Unsplash image and attempt
to store it exactly once; any failure of that secondary path is a 502.  A
failed generation is returned as a 200 body with `success: false` and
`r2Stored: false`. -/
def legacyImagesGenerate (req : GenerateImageRequest) (env : ProvEnv)
    (so : LegacyStoreOracles) : LegacyOutcome :=
  let att := (legacyGenerateImage req env).1
  let gen := (legacyGenerateImage req env).2
  if gen.success then
    let t := storeRetryLoop so.primary 0 2
    match t.url with
    | some u =>
        { attempts := att, primaryStoreCalls := t.calls, backoffs := t.backoffs,
          fallbackUnsplashCalls := 0, secondaryStoreCalls := 0,
          reply := .ok u gen.provider true true }
    | none =>
        if ¬ so.unsplashFallback.success ∨ so.unsplashFallback.url = "" then
          { attempts := att, primaryStoreCalls := t.calls, backoffs := t.backoffs,
            fallbackUnsplashCalls := 1, secondaryStoreCalls := 0,
            reply := .httpError
              "R2 upload failed and Unsplash fallback upload also failed" 502 }
        else
          match so.secondary with
          | .ok u2 =>
              { attempts := att, primaryStoreCalls := t.calls, backoffs := t.backoffs,
                fallbackUnsplashCalls := 1, secondaryStoreCalls := 1,
                reply := .ok u2 so.unsplashFallback.provider true true }
          | .fail _ =>
              { attempts := att, primaryStoreCalls := t.calls, backoffs := t.backoffs,
                fallbackUnsplashCalls := 1, secondaryStoreCalls := 1,
                reply := .httpError
                  "R2 upload failed and Unsplash fallback upload also failed" 502 }
  else
    { attempts := att, primaryStoreCalls := 0, backoffs := [],
      fallbackUnsplashCalls := 0, secondaryStoreCalls := 0,
      reply := .ok gen.url gen.provider gen.success false }

/-! ## Circuit breaker (src/images-gen/src/utils/errorHandler.ts:160-278) -/

/-- errorHandler.ts:260-263. -/
structure CircuitBreakerConfig where
  failureThreshold : Nat
  resetTimeoutMs : Nat
deriving Repr, DecidableEq

/-- errorHandler.ts:270-273. -/
def DEFAULT_CIRCUIT_BREAKER_CONFIG : CircuitBreakerConfig :=
  { failureThreshold := 5, resetTimeoutMs := 60000 }

/-- errorHandler.ts:254-258 — per-provider failure tracker.  The breaker's
map entry for one provider; `none` models absence from the map. -/
structure FailureTracker where
  consecutiveFailures : Nat
  lastFailureTime : Nat
  circuitOpen : Bool
deriving Repr, DecidableEq

/-- errorHandler.ts:171-190 `isProviderAvailable`.  Note the half-open
transition mutates the tracker: once the cool-down has elapsed the method
sets `circuitOpen := false` and `consecutiveFailures := 0` before returning
`true`.  Returns the availability verdict together with the updated entry. -/
def isProviderAvailable (cfg : CircuitBreakerConfig) (now : Nat) :
    Option FailureTracker → Bool × Option FailureTracker
  | none => (true, none)
  | some t =>
      if t.circuitOpen then
        if now - t.lastFailureTime > cfg.resetTimeoutMs then
          (true, some { t with circuitOpen := false, consecutiveFailures := 0 })
        else
          (false, some t)
      else
        (true, some t)

/-- errorHandler.ts:195-201 `recordSuccess`: zero the counter and close the
circuit, when an entry exists. -/
def recordSuccess : Option FailureTracker → Option FailureTracker
  | none => none
  | some t => some { t with consecutiveFailures := 0, circuitOpen := false }

/-- errorHandler.ts:206-225 `recordFailure`: create the entry if missing,
increment the counter, stamp the failure time, and open the circuit when the
counter reaches the threshold. -/
def recordFailure (cfg : CircuitBreakerConfig) (now : Nat) :
    Option FailureTracker → Option FailureTracker
  | s =>
      let t0 := s.getD { consecutiveFailures := 0, lastFailureTime := 0, circuitOpen := false }
      let t1 := { t0 with consecutiveFailures := t0.consecutiveFailures + 1,
                          lastFailureTime := now }
      if t1.consecutiveFailures ≥ cfg.failureThreshold then
        some { t1 with circuitOpen := true }
      else
        some t1

/-- The consecutive-failure count a tracker entry represents (an absent entry
counts as zero, matching `getProviderStatus`). -/
def failureCount : Option FailureTracker → Nat
  | none => 0
  | some t => t.consecutiveFailures

/-!
## Error-message sanitization (errorHandler.ts:144-154)

`ErrorHandler.sanitizeErrorMessage` applies four global, case-insensitive
regex replacements and then truncates to 200 characters:

  message
    .replace of api[_\s]?key[_\s]?[:\s]*[a-zA-Z0-9_-]+  with API_KEY_REDACTED
    .replace of token[_\s]?[:\s]*[a-zA-Z0-9_-]+         with TOKEN_REDACTED
    .replace of password[_\s]?[:\s]*[^\s]+              with PASSWORD_REDACTED
    .replace of secret[_\s]?[:\s]*[^\s]+                with SECRET_REDACTED

The embedding implements the JS backtracking semantics of these patterns
over `List Char`: each quantifier greedily consumes and backtracks through a
continuation.
-/

/-- JS `\s` restricted to the characters that can occur in the repository's
error messages (ASCII whitespace and no-break space). -/
def jsWhitespace (c : Char) : Bool :=
  c = ' ' || c = '\t' || c = '\n' || c = '\r' || c = '\x0B' || c = '\x0C' || c = '\xA0'

/-- Character class `[_\s]`. -/
def usOrWs (c : Char) : Bool := c = '_' || jsWhitespace c

/-- Character class `[:\s]`. -/
def colonOrWs (c : Char) : Bool := c = ':' || jsWhitespace c

/-- Character class `[a-zA-Z0-9_-]`. -/
def wordDash (c : Char) : Bool := c.isAlphanum || c = '_' || c = '-'

/-- Character class `[^\s]`. -/
def nonWs (c : Char) : Bool := !jsWhitespace c

/-- Greedy `cls?` with backtracking into the continuation `k`. -/
def matchOpt (cls : Char → Bool) (k : List Char → Option (List Char)) :
    List Char → Option (List Char)
  | [] => k []
  | c :: rest =>
      if cls c then (k rest).orElse (fun _ => k (c :: rest)) else k (c :: rest)

/-- Greedy `cls*` with backtracking into the continuation `k`. -/
def matchStar (cls : Char → Bool) (k : List Char → Option (List Char)) :
    List Char → Option (List Char)
  | [] => k []
  | c :: rest =>
      if cls c then (matchStar cls k rest).orElse (fun _ => k (c :: rest))
      else k (c :: rest)

/-- Greedy `cls+` (one certain character, then greedy star). -/
def matchPlus (cls : Char → Bool) (k : List Char → Option (List Char)) :
    List Char → Option (List Char)
  | [] => none
  | c :: rest => if cls c then matchStar cls k rest else none

/-- Case-insensitive literal keyword, then the continuation. -/
def matchKeyword : List Char → (List Char → Option (List Char)) →
    List Char → Option (List Char)
  | [], k, cs => k cs
  | _ :: _, _, [] => none
  | a :: kw, k, c :: cs =>
      if c.toLower = a.toLower then matchKeyword kw k cs else none

/-- `/token[_\s]?[:\s]*[a-zA-Z0-9_-]+/i` anchored at the head; returns the
rest of the input after the match. -/
def tokenPat (cs : List Char) : Option (List Char) :=
  matchKeyword "token".data
    (matchOpt usOrWs (matchStar colonOrWs (matchPlus wordDash some))) cs

/-- `/api[_\s]?key[_\s]?[:\s]*[a-zA-Z0-9_-]+/i` anchored at the head. -/
def apiKeyPat (cs : List Char) : Option (List Char) :=
  matchKeyword "api".data
    (matchOpt usOrWs (matchKeyword "key".data
      (matchOpt usOrWs (matchStar colonOrWs (matchPlus wordDash some))))) cs

/-- `/password[_\s]?[:\s]*[^\s]+/i` anchored at the head. -/
def passwordPat (cs : List Char) : Option (List Char) :=
  matchKeyword "password".data
    (matchOpt usOrWs (matchStar colonOrWs (matchPlus nonWs some))) cs

/-- `/secret[_\s]?[:\s]*[^\s]+/i` anchored at the head. -/
def secretPat (cs : List Char) : Option (List Char) :=
  matchKeyword "secret".data
    (matchOpt usOrWs (matchStar colonOrWs (matchPlus nonWs some))) cs

/-- JS global `String.replace`: scan left to right, replace each
non-overlapping match, continue after the match.  Fuel is the input length;
every pattern used here consumes at least one character per match, so the
fuel never runs out. -/
def replaceAllGo (pat : List Char → Option (List Char)) (repl : List Char) :
    Nat → List Char → List Char
  | 0, cs => cs
  | _ + 1, [] => []
  | fuel + 1, c :: rest =>
      match pat (c :: rest) with
      | some r => repl ++ replaceAllGo pat repl fuel r
      | none => c :: replaceAllGo pat repl fuel rest

/-- Global replacement of `pat` by `repl`. -/
def replaceAll (pat : List Char → Option (List Char)) (repl : List Char)
    (cs : List Char) : List Char :=
  replaceAllGo pat repl cs.length cs

/-- errorHandler.ts:144-154 `sanitizeErrorMessage`: the four redaction
replacements in source order, then truncation to 200 characters. -/
def sanitizeErrorMessage (message : String) : String :=
  let s1 := replaceAll apiKeyPat "API_KEY_REDACTED".data message.data
  let s2 := replaceAll tokenPat "TOKEN_REDACTED".data s1
  let s3 := replaceAll passwordPat "PASSWORD_REDACTED".data s2
  let s4 := replaceAll secretPat "SECRET_REDACTED".data s3
  let sanitized := String.mk s4
  if sanitized.length > 200 then sanitized.take 200 ++ "..." else sanitized

/-! ## Helper lemmas -/

lemma default_fallback_ne_empty : DEFAULT_FALLBACK_IMAGE ≠ "" := by decide

lemma assembleFinalResult_url_ne_empty (r : ImageProcessingResult) :
    (assembleFinalResult r).url ≠ "" := by
  unfold assembleFinalResult
  dsimp only
  split
  · exact default_fallback_ne_empty
  · assumption

lemma processOriginalImage_r2Stored (u : String) (dl : DownloadOutcome) :
    (processOriginalImageWithLogging u dl).r2Stored = none := by
  cases dl <;> rfl

lemma processAIGeneration_r2Stored (req : GenerateImageRequest) (env : ProvEnv) :
    (processAIGenerationWithLogging req env).2.r2Stored = none := by
  unfold processAIGenerationWithLogging
  by_cases h : (aiProviderChain req env).2.success = true <;> simp [h]

lemma unifiedMainFlow_r2Stored (req : GenerateImageRequest) (o : Oracles) :
    (unifiedMainFlow req o).2.r2Stored = none := by
  unfold unifiedMainFlow
  split
  · dsimp only
    split
    · exact processAIGeneration_r2Stored req o.providers
    · exact processOriginalImage_r2Stored _ o.download
  · exact processAIGeneration_r2Stored req o.providers

lemma applyStorage_fst_source (st : StoreOutcome) (r : ImageProcessingResult) :
    ((applyStorage st r).1).source = r.source := by
  unfold applyStorage
  split
  · cases st <;> rfl
  · rfl

lemma applyStorage_fst_success (st : StoreOutcome) (r : ImageProcessingResult) :
    ((applyStorage st r).1).success = r.success := by
  unfold applyStorage
  split
  · cases st <;> rfl
  · rfl

lemma applyStorage_fst_originalUrl (st : StoreOutcome) (r : ImageProcessingResult) :
    ((applyStorage st r).1).originalUrl = r.originalUrl := by
  unfold applyStorage
  split
  · cases st <;> rfl
  · rfl

/-- Once the three validation guards pass, the unified processor is the
composition of main flow, storage and final-result assembly. -/
lemma processUnified_run_eq (req : GenerateImageRequest) (o : Oracles)
    (hv1 : ¬(¬ truthy req.imageUrl ∧ ¬ truthy req.prompt))
    (hv2 : ¬(truthy req.imageUrl ∧ ¬ o.urlFormatOk))
    (hv3 : ¬(truthy req.prompt = true ∧ promptTrimEmpty (req.prompt.getD "") = true)) :
    processUnifiedImageRequest req o =
      { result := assembleFinalResult (applyStorage o.storage (unifiedMainFlow req o).2).1,
        attempts := (unifiedMainFlow req o).1,
        storedToR2 := (applyStorage o.storage (unifiedMainFlow req o).2).2 } := by
  unfold processUnifiedImageRequest
  rw [if_neg hv1, if_neg hv2, if_neg hv3]

/-! ## Claims -/

/-- C1.  For every valid request (at least one of imageUrl/prompt truthy),
the response of the unified processor has a non-empty `url`, whatever the
download, provider and storage oracles do; and for a request with only an
imageUrl whose download fails, the `url` is exactly the emergency fallback
constant. -/
theorem c1_no_empty_result (req : GenerateImageRequest) (o : Oracles)
    (hvalid : truthy req.imageUrl = true ∨ truthy req.prompt = true) :
    (processUnifiedImageRequest req o).result.url ≠ "" ∧
    (∀ e, req.prompt = none → o.download = DownloadOutcome.fail e →
      (processUnifiedImageRequest req o).result.url = DEFAULT_FALLBACK_IMAGE) := by
  constructor
  · unfold processUnifiedImageRequest
    split
    · exact default_fallback_ne_empty
    · split
      · exact default_fallback_ne_empty
      · split
        · exact default_fallback_ne_empty
        · exact assembleFinalResult_url_ne_empty _
  · intro e hp hd
    have himg : truthy req.imageUrl = true := by
      rcases hvalid with h | h
      · exact h
      · rw [hp] at h; simp [truthy] at h
    unfold processUnifiedImageRequest
    rw [if_neg (by simp [himg])]
    by_cases hfmt : o.urlFormatOk
    · rw [if_neg (by simp [himg, hfmt]), if_neg (by simp [hp, truthy])]
      unfold unifiedMainFlow
      rw [if_pos himg]
      dsimp only
      rw [hd]
      unfold processOriginalImageWithLogging
      rw [if_neg (by simp [hp, truthy])]
      unfold applyStorage
      rw [if_neg (by simp)]
      unfold assembleFinalResult
      simp
    · rw [if_pos (by simp [himg, hfmt])]
      rfl

/-- C1 witness: a request with only an imageUrl whose download fails. -/
theorem c1_no_empty_result_check :
    (processUnifiedImageRequest
        { imageUrl := some "https://example.com/a.jpg" }
        { urlFormatOk := true, download := .fail "HTTP 404: Failed to download image",
          providers :=
            { replicate := { success := false },
              fal := { success := false },
              unsplash := { success := false } },
          storage := .fail "unused" }).result.url = DEFAULT_FALLBACK_IMAGE :=
  (c1_no_empty_result _ _ (Or.inl (by decide))).2
    "HTTP 404: Failed to download image" rfl rfl

/-- C2.  With a truthy imageUrl whose download fails, a truthy valid prompt
and no provider hint, the adapters are attempted strictly in the order
Replicate, Fal, Unsplash; the final `source` is the name of the first mocked
adapter that succeeds; and when Replicate and Fal fail while Unsplash
succeeds, exactly three attempts occur, in that order. -/
theorem c2_fallback_ordering (req : GenerateImageRequest) (o : Oracles)
    (u p e : String)
    (hiu : req.imageUrl = some u) (hu : u ≠ "")
    (hp : req.prompt = some p) (hpe : p ≠ "") (hpt : promptTrimEmpty p = false)
    (hprov : req.provider = none)
    (hfmt : o.urlFormatOk = true)
    (hdl : o.download = DownloadOutcome.fail e)
    (hRn : o.providers.replicate.provider = "replicate")
    (hFn : o.providers.fal.provider = "fal")
    (hUn : o.providers.unsplash.provider = "unsplash") :
    (o.providers.replicate.success = true →
      (processUnifiedImageRequest req o).attempts = [("replicate", some p)] ∧
      (processUnifiedImageRequest req o).result.source = "replicate") ∧
    (o.providers.replicate.success = false → o.providers.fal.success = true →
      (processUnifiedImageRequest req o).attempts =
        [("replicate", some p), ("fal", some p)] ∧
      (processUnifiedImageRequest req o).result.source = "fal") ∧
    (o.providers.replicate.success = false → o.providers.fal.success = false →
      o.providers.unsplash.success = true →
      (processUnifiedImageRequest req o).attempts =
        [("replicate", some p), ("fal", some p), ("unsplash", some p)] ∧
      (processUnifiedImageRequest req o).result.source = "unsplash") := by
  have himg : truthy req.imageUrl = true := by simp [truthy, hiu, hu]
  have hpr : truthy req.prompt = true := by simp [truthy, hp, hpe]
  have hrun := processUnified_run_eq req o
    (by simp [himg]) (by simp [himg, hfmt]) (by simp [hp, hpt])
  have hmf : unifiedMainFlow req o = processAIGenerationWithLogging req o.providers := by
    unfold unifiedMainFlow
    rw [if_pos himg]
    dsimp only
    rw [hdl]
    unfold processOriginalImageWithLogging
    rw [if_pos (by simp [hpr])]
  refine ⟨?_, ?_, ?_⟩
  · intro hR
    have hchain : aiProviderChain req o.providers =
        ([("replicate", req.prompt)], o.providers.replicate) := by
      unfold aiProviderChain
      rw [hprov]
      dsimp only
      rw [if_pos hR]
    constructor
    · simp [hrun, hmf, processAIGenerationWithLogging, hchain, hR, hp]
    · simp [hrun, hmf, processAIGenerationWithLogging, hchain, hR,
        assembleFinalResult, applyStorage_fst_source, hRn]
  · intro hR hF
    have hchain : aiProviderChain req o.providers =
        ([("replicate", req.prompt), ("fal", req.prompt)], o.providers.fal) := by
      unfold aiProviderChain
      rw [hprov]
      dsimp only
      rw [if_neg (by simp [hR]), if_pos hF]
    constructor
    · simp [hrun, hmf, processAIGenerationWithLogging, hchain, hF, hp]
    · simp [hrun, hmf, processAIGenerationWithLogging, hchain, hF,
        assembleFinalResult, applyStorage_fst_source, hFn]
  · intro hR hF hU
    have hchain : aiProviderChain req o.providers =
        ([("replicate", req.prompt), ("fal", req.prompt), ("unsplash", req.prompt)],
          o.providers.unsplash) := by
      unfold aiProviderChain
      rw [hprov]
      dsimp only
      rw [if_neg (by simp [hR]), if_neg (by simp [hF]), if_pos hU]
    constructor
    · simp [hrun, hmf, processAIGenerationWithLogging, hchain, hU, hp]
    · simp [hrun, hmf, processAIGenerationWithLogging, hchain, hU,
        assembleFinalResult, applyStorage_fst_source, hUn]

/-- C2 witness: Replicate and Fal mocked to fail, Unsplash to succeed. -/
theorem c2_fallback_ordering_check :
    (processUnifiedImageRequest
        { imageUrl := some "https://example.com/a.jpg", prompt := some "a red bicycle" }
        { urlFormatOk := true, download := .fail "HTTP 404: Failed to download image",
          providers :=
            { replicate := { success := false, provider := "replicate" },
              fal := { success := false, provider := "fal" },
              unsplash := { success := true, provider := "unsplash",
                            url := "https://images.unsplash.com/photo-1" } },
          storage := .fail "R2 unavailable" }).attempts =
      [("replicate", some "a red bicycle"), ("fal", some "a red bicycle"),
        ("unsplash", some "a red bicycle")] :=
  ((c2_fallback_ordering _ _ "https://example.com/a.jpg" "a red bicycle"
      "HTTP 404: Failed to download image" rfl (by decide) rfl (by decide) (by decide)
      rfl rfl rfl rfl rfl rfl).2.2 rfl rfl rfl).1

lemma processAIGeneration_fst (req : GenerateImageRequest) (env : ProvEnv) :
    (processAIGenerationWithLogging req env).1 = (aiProviderChain req env).1 := by
  unfold processAIGenerationWithLogging
  by_cases h : (aiProviderChain req env).2.success = true <;> simp [h]

/-- C3.  With a provider hint naming one of the three providers, exactly that
one adapter is invoked — for every combination of adapter outcomes, so in
particular also when the hinted provider fails: no fallback occurs. -/
theorem c3_provider_hint_bypass (req : GenerateImageRequest) (o : Oracles)
    (p q : String)
    (hiu : req.imageUrl = none)
    (hp : req.prompt = some p) (hpe : p ≠ "") (hpt : promptTrimEmpty p = false)
    (hq : req.provider = some q)
    (hmem : q = "replicate" ∨ q = "fal" ∨ q = "unsplash") :
    (processUnifiedImageRequest req o).attempts = [(q, some p)] := by
  have hpr : truthy req.prompt = true := by simp [truthy, hp, hpe]
  have hrun := processUnified_run_eq req o
    (by simp [hpr]) (by simp [hiu, truthy]) (by simp [hp, hpt])
  have hmf : unifiedMainFlow req o = processAIGenerationWithLogging req o.providers := by
    unfold unifiedMainFlow
    rw [if_neg (by simp [hiu, truthy])]
  rw [hrun]
  dsimp only
  rw [hmf, processAIGeneration_fst]
  rcases hmem with h | h | h <;> subst h <;> simp [aiProviderChain, hq, hp]

/-- C3 witness: hint `fal`, Fal mocked to fail while the others would
succeed; still only Fal is invoked. -/
theorem c3_provider_hint_bypass_check :
    (processUnifiedImageRequest
        { prompt := some "a red bicycle", provider := some "fal" }
        { providers :=
            { replicate := { success := true, provider := "replicate" },
              fal := { success := false, provider := "fal",
                       error := some "Fal AI API error: 500" },
              unsplash := { success := true, provider := "unsplash" } } }).attempts =
      [("fal", some "a red bicycle")] :=
  c3_provider_hint_bypass _ _ "a red bicycle" "fal" rfl rfl (by decide) (by decide)
    rfl (Or.inr (Or.inl rfl))

/-- C9.  For a request with only an imageUrl whose download and validation
succeed, the source is `original`, the request's imageUrl is echoed in
`originalUrl`, and no provider adapter is invoked. -/
theorem c9_original_strategy (req : GenerateImageRequest) (o : Oracles)
    (u f : String)
    (hiu : req.imageUrl = some u) (hu : u ≠ "") (hp : req.prompt = none)
    (hfmt : o.urlFormatOk = true) (hdl : o.download = DownloadOutcome.ok f) :
    (processUnifiedImageRequest req o).result.source = "original" ∧
    (processUnifiedImageRequest req o).result.originalUrl = some u ∧
    (processUnifiedImageRequest req o).attempts = [] := by
  have himg : truthy req.imageUrl = true := by simp [truthy, hiu, hu]
  have hrun := processUnified_run_eq req o
    (by simp [himg]) (by simp [himg, hfmt]) (by simp [hp, truthy])
  have hmf : unifiedMainFlow req o =
      ([], processOriginalImageWithLogging u o.download) := by
    unfold unifiedMainFlow
    rw [if_pos himg]
    dsimp only
    rw [hiu]
    simp only [Option.getD_some]
    rw [if_neg (by simp [hp, truthy])]
  refine ⟨?_, ?_, ?_⟩
  · simp [hrun, hmf, hdl, processOriginalImageWithLogging,
      assembleFinalResult, applyStorage_fst_source]
  · simp [hrun, hmf, hdl, processOriginalImageWithLogging,
      assembleFinalResult, applyStorage_fst_originalUrl]
  · simp [hrun, hmf]

/-- C9 witness. -/
theorem c9_original_strategy_check :
    (processUnifiedImageRequest
        { imageUrl := some "https://example.com/a.jpg" }
        { urlFormatOk := true, download := .ok "https://example.com/a.jpg",
          providers :=
            { replicate := { success := true, provider := "replicate" },
              fal := { success := true, provider := "fal" },
              unsplash := { success := true, provider := "unsplash" } },
          storage := .ok "https://cdn.example.com/ai/2025/10/x.jpg" }).attempts = [] :=
  (c9_original_strategy _ _ "https://example.com/a.jpg" "https://example.com/a.jpg"
    rfl (by decide) rfl rfl rfl).2.2

/-- C5 counterexample.  A request with only an imageUrl whose download fails:
the claim says the emergency fallback URL is not substituted for the
requested literal URL, but the processor returns exactly
`DEFAULT_FALLBACK_IMAGE` as `url` (which differs from the requested URL). -/
theorem c5_no_substitution_counterexample :
    (processUnifiedImageRequest
        { imageUrl := some "https://example.com/pic.jpg" }
        { urlFormatOk := true, download := .fail "HTTP 404: Failed to download image",
          providers :=
            { replicate := { success := false },
              fal := { success := false },
              unsplash := { success := false } },
          storage := .fail "unused" }).result.url = DEFAULT_FALLBACK_IMAGE ∧
    DEFAULT_FALLBACK_IMAGE ≠ "https://example.com/pic.jpg" := by
  constructor
  · rfl
  · decide

/-- C5 amended.  For a request with only an imageUrl whose download fails,
the request terminates with `success = false` and no provider is attempted —
but the `url` field of the response is set to the emergency fallback
constant (the requested literal URL is only echoed in `originalUrl`). -/
theorem c5_amended_failure_with_fallback_url (req : GenerateImageRequest)
    (o : Oracles) (u e : String)
    (hiu : req.imageUrl = some u) (hu : u ≠ "") (hp : req.prompt = none)
    (hfmt : o.urlFormatOk = true) (hdl : o.download = DownloadOutcome.fail e) :
    (processUnifiedImageRequest req o).result.success = false ∧
    (processUnifiedImageRequest req o).result.url = DEFAULT_FALLBACK_IMAGE ∧
    (processUnifiedImageRequest req o).result.originalUrl = some u ∧
    (processUnifiedImageRequest req o).attempts = [] := by
  have himg : truthy req.imageUrl = true := by simp [truthy, hiu, hu]
  have hrun := processUnified_run_eq req o
    (by simp [himg]) (by simp [himg, hfmt]) (by simp [hp, truthy])
  have hmf : unifiedMainFlow req o =
      ([], processOriginalImageWithLogging u o.download) := by
    unfold unifiedMainFlow
    rw [if_pos himg]
    dsimp only
    rw [hiu]
    simp only [Option.getD_some]
    rw [if_neg (by simp [hp, truthy])]
  refine ⟨?_, ?_, ?_, ?_⟩
  · simp [hrun, hmf, hdl, processOriginalImageWithLogging,
      assembleFinalResult, applyStorage_fst_success]
  · simp [hrun, hmf, hdl, processOriginalImageWithLogging,
      assembleFinalResult, applyStorage]
  · simp [hrun, hmf, hdl, processOriginalImageWithLogging,
      assembleFinalResult, applyStorage_fst_originalUrl]
  · simp [hrun, hmf]

/-- C5 amended witness. -/
theorem c5_amended_failure_with_fallback_url_check :
    (processUnifiedImageRequest
        { imageUrl := some "https://example.com/pic.jpg" }
        { urlFormatOk := true, download := .fail "HTTP 500: Failed to download image",
          providers :=
            { replicate := { success := false },
              fal := { success := false },
              unsplash := { success := false } },
          storage := .fail "unused" }).result.success = false :=
  (c5_amended_failure_with_fallback_url _ _ "https://example.com/pic.jpg"
    "HTTP 500: Failed to download image" rfl (by decide) rfl rfl rfl).1

/-- C8.  The `r2Stored` flag of the final result equals the effect flag that
records whether the winning image was actually written to R2; and whenever
the storage write fails, the response reports `r2Stored = false` (in
particular when processing itself succeeded). -/
theorem c8_r2stored_iff_written (req : GenerateImageRequest) (o : Oracles) :
    (processUnifiedImageRequest req o).result.r2Stored =
      (processUnifiedImageRequest req o).storedToR2 ∧
    (∀ e, o.storage = StoreOutcome.fail e →
      (processUnifiedImageRequest req o).result.r2Stored = false) := by
  constructor
  · unfold processUnifiedImageRequest
    split
    · rfl
    · split
      · rfl
      · split
        · rfl
        · dsimp only
          unfold applyStorage
          split
          · cases o.storage <;> simp [assembleFinalResult]
          · simp [assembleFinalResult, unifiedMainFlow_r2Stored]
  · intro e he
    unfold processUnifiedImageRequest
    split
    · rfl
    · split
      · rfl
      · split
        · rfl
        · dsimp only
          unfold applyStorage
          rw [he]
          split
          · simp [assembleFinalResult]
          · simp [assembleFinalResult, unifiedMainFlow_r2Stored]

/-- C8 witness: AI generation succeeds, the storage write fails, and the
response reports `r2Stored = false`. -/
theorem c8_r2stored_iff_written_check :
    (processUnifiedImageRequest
        { prompt := some "a red bicycle" }
        { providers :=
            { replicate := { success := true, provider := "replicate",
                             url := "https://replicate.delivery/x.webp" },
              fal := { success := false },
              unsplash := { success := false } },
          storage := .fail "R2 write failed" }).result.r2Stored = false :=
  (c8_r2stored_iff_written _ _).2 "R2 write failed" rfl

/-- C4.  On the legacy /images/generate path with a successful generation:
if `storeImageInR2` fails twice and succeeds on the third call, persistence
succeeds after exactly 3 storage attempts with backoffs 300 ms and 600 ms;
if it always fails, exactly 3 attempts (the configured 2 retries + 1) occur
with the same exponential backoffs, followed by exactly one Unsplash
secondary fetch and exactly one secondary persistence attempt, with no
further fallback after that. -/
theorem c4_persistence_retry_bound (req : GenerateImageRequest) (env : ProvEnv)
    (so : LegacyStoreOracles)
    (hgen : (legacyGenerateImage req env).2.success = true) :
    (∀ e0 e1 u2, so.primary 0 = .fail e0 → so.primary 1 = .fail e1 →
      so.primary 2 = .ok u2 →
      (legacyImagesGenerate req env so).primaryStoreCalls = 3 ∧
      (legacyImagesGenerate req env so).backoffs = [300, 600] ∧
      (legacyImagesGenerate req env so).reply =
        LegacyReply.ok u2 (legacyGenerateImage req env).2.provider true true ∧
      (legacyImagesGenerate req env so).fallbackUnsplashCalls = 0 ∧
      (legacyImagesGenerate req env so).secondaryStoreCalls = 0) ∧
    (∀ e0 e1 e2, so.primary 0 = .fail e0 → so.primary 1 = .fail e1 →
      so.primary 2 = .fail e2 →
      so.unsplashFallback.success = true → so.unsplashFallback.url ≠ "" →
      (legacyImagesGenerate req env so).primaryStoreCalls = 3 ∧
      (legacyImagesGenerate req env so).backoffs = [300, 600] ∧
      (legacyImagesGenerate req env so).fallbackUnsplashCalls = 1 ∧
      (legacyImagesGenerate req env so).secondaryStoreCalls = 1) := by
  constructor
  · intro e0 e1 u2 h0 h1 h2
    have htrace : storeRetryLoop so.primary 0 2 =
        { calls := 3, backoffs := [300, 600], url := some u2 } := by
      unfold storeRetryLoop
      rw [h0]
      unfold storeRetryLoop
      rw [h1]
      unfold storeRetryLoop
      rw [h2]
      norm_num
    simp [legacyImagesGenerate, hgen, htrace]
  · intro e0 e1 e2 h0 h1 h2 hU hUu
    have htrace : storeRetryLoop so.primary 0 2 =
        { calls := 3, backoffs := [300, 600], url := none } := by
      unfold storeRetryLoop
      rw [h0]
      unfold storeRetryLoop
      rw [h1]
      unfold storeRetryLoop
      rw [h2]
      norm_num
    cases hsec : so.secondary <;>
      simp [legacyImagesGenerate, hgen, htrace, hU, hUu, hsec]

/-- C4 witness: generation succeeds via Replicate; the primary store always
fails, the Unsplash secondary succeeds; the counts are 3 primary attempts,
backoffs 300 and 600, one secondary fetch and one secondary store. -/
theorem c4_persistence_retry_bound_check :
    (legacyImagesGenerate
        { prompt := some "a red bicycle" }
        { replicate := { success := true, provider := "replicate",
                         url := "https://replicate.delivery/x.webp" },
          fal := { success := false },
          unsplash := { success := false } }
        { primary := fun _ => .fail "R2 put failed",
          unsplashFallback := { success := true, provider := "unsplash",
                                url := "https://images.unsplash.com/photo-1" },
          secondary := .ok "https://cdn.example.com/ai/2025/10/y.jpg"
        }).primaryStoreCalls = 3 :=
  ((c4_persistence_retry_bound _ _ _ (by rfl)).2
    "R2 put failed" "R2 put failed" "R2 put failed" rfl rfl rfl rfl (by decide)).1

/-- C10.  An `imageUrl` field present but equal to the empty string never
reaches the unified processor: the route picks the legacy path for every
prompt/provider combination; the legacy chain ignores `imageUrl` entirely;
and with no prompt the legacy chain still attempts providers, passing the
absent prompt through (instead of producing the configuration error, which
only the unified processor can emit). -/
theorem c10_empty_imageurl_routing :
    (∀ p prov aid,
      imagesGenerateRoute
        { imageUrl := some "", prompt := p, provider := prov, articleId := aid } =
        RouteChoice.legacy) ∧
    (∀ (req : GenerateImageRequest) (iu1 iu2 : Option String) (env : ProvEnv),
      legacyGenerateImage { req with imageUrl := iu1 } env =
        legacyGenerateImage { req with imageUrl := iu2 } env) ∧
    (∀ (aid : Option String) (env : ProvEnv),
      (legacyGenerateImage
          { imageUrl := some "", prompt := none, provider := none,
            articleId := aid } env).1 ≠ [] ∧
      ∀ pr ∈ (legacyGenerateImage
          { imageUrl := some "", prompt := none, provider := none,
            articleId := aid } env).1, pr.2 = none) := by
  refine ⟨?_, ?_, ?_⟩
  · intro p prov aid
    have : useUnifiedProcessor
        { imageUrl := some "", prompt := p, provider := prov, articleId := aid } =
        false := by
      simp [useUnifiedProcessor, truthy]
    simp [imagesGenerateRoute, this]
  · intro req iu1 iu2 env
    rfl
  · intro aid env
    by_cases hR : env.replicate.success = true <;>
      by_cases hF : env.fal.success = true <;>
        simp [legacyGenerateImage, hR, hF]

/-- C10 witness: the route picks the legacy handler for
`imageUrl = ""` with no prompt. -/
theorem c10_empty_imageurl_routing_check :
    imagesGenerateRoute { imageUrl := some "" } = RouteChoice.legacy :=
  c10_empty_imageurl_routing.1 none none none

/-- C7 counterexample.  With the default configuration (threshold 5,
cool-down 60000 ms): after 5 failures at time 0 the circuit is open; the
availability check at time 70000 grants the trial call (and zeroes the
counter); a failure on that trial call leaves the counter at 1, and the very
next availability check — at time 70001, well inside what the claim says
should be a restarted cool-down — reports the provider available.  The
claimed behavior (a trial-call failure re-opens the breaker and restarts the
cool-down) would require `false` here. -/
theorem c7_trial_failure_counterexample :
    (let cfg := DEFAULT_CIRCUIT_BREAKER_CONFIG
     let s5 := recordFailure cfg 0 (recordFailure cfg 0 (recordFailure cfg 0
        (recordFailure cfg 0 (recordFailure cfg 0 none))))
     let s6 := (isProviderAvailable cfg 70000 s5).2
     let s7 := recordFailure cfg 70000 s6
     (isProviderAvailable cfg 70000 s5).1 = true ∧
     failureCount s7 = 1 ∧
     (isProviderAvailable cfg 70001 s7).1 = true) := by
  decide

/-- C7 amended.  Every failure increments the provider's consecutive-failure
counter and every success resets it to zero; once the counter reaches the
threshold the breaker opens and the provider is reported unavailable until
the cool-down elapses; the first availability check after the cool-down
closes the breaker and zeroes the counter before granting the trial call, so
a failure on that trial call leaves the counter at 1 and re-opens the
breaker only when the threshold is at most 1 — it does not re-open it or
restart the cool-down for the default threshold of 5. -/
theorem c7_amended_breaker_discipline (cfg : CircuitBreakerConfig) (now : Nat)
    (s : Option FailureTracker) (t : FailureTracker) :
    (failureCount (recordFailure cfg now s) = failureCount s + 1) ∧
    (failureCount (recordSuccess s) = 0) ∧
    (failureCount s + 1 ≥ cfg.failureThreshold →
      ∃ t1, recordFailure cfg now s = some t1 ∧ t1.circuitOpen = true) ∧
    (t.circuitOpen = true → now - t.lastFailureTime ≤ cfg.resetTimeoutMs →
      (isProviderAvailable cfg now (some t)).1 = false) ∧
    (t.circuitOpen = true → now - t.lastFailureTime > cfg.resetTimeoutMs →
      isProviderAvailable cfg now (some t) =
        (true, some { t with circuitOpen := false, consecutiveFailures := 0 }) ∧
      ∀ now2, recordFailure cfg now2
          (some { t with circuitOpen := false, consecutiveFailures := 0 }) =
        some { consecutiveFailures := 1, lastFailureTime := now2,
               circuitOpen := decide (1 ≥ cfg.failureThreshold) }) := by
  refine ⟨?_, ?_, ?_, ?_, ?_⟩
  · cases s <;>
      simp only [recordFailure, Option.getD_none, Option.getD_some] <;>
      split <;> simp [failureCount]
  · cases s <;> simp [recordSuccess, failureCount]
  · intro h
    cases s with
    | none =>
        simp only [recordFailure, Option.getD_none]
        simp only [failureCount] at h
        rw [if_pos (by simpa using h)]
        exact ⟨_, rfl, rfl⟩
    | some t0 =>
        simp only [recordFailure, Option.getD_some]
        simp only [failureCount] at h
        rw [if_pos (by simpa using h)]
        exact ⟨_, rfl, rfl⟩
  · intro h1 h2
    simp only [isProviderAvailable]
    rw [if_pos h1, if_neg (by omega)]
  · intro h1 h2
    constructor
    · simp only [isProviderAvailable]
      rw [if_pos h1, if_pos h2]
    · intro now2
      by_cases hth : 1 ≥ cfg.failureThreshold <;>
        simp [recordFailure, hth]

/-- C7 amended witness: the open breaker at default configuration grants the
trial call after the cool-down and hands back a closed, zeroed tracker. -/
theorem c7_amended_breaker_discipline_check :
    isProviderAvailable DEFAULT_CIRCUIT_BREAKER_CONFIG 70000
        (some { consecutiveFailures := 5, lastFailureTime := 0, circuitOpen := true }) =
      (true, some { consecutiveFailures := 0, lastFailureTime := 0, circuitOpen := false }) :=
  ((c7_amended_breaker_discipline DEFAULT_CIRCUIT_BREAKER_CONFIG 70000 none
      { consecutiveFailures := 5, lastFailureTime := 0, circuitOpen := true }).2.2.2.2
    rfl (by decide)).1

/-- C6.  The upstream error message `Upstream 401: token=abc123` passes
through `sanitizeErrorMessage` unchanged — the token-redaction pattern
accepts `_`, whitespace and `:` as separators but not `=`, so the secret
value `abc123` still occurs (as a substring) in the sanitized message that
reaches the caller-facing `error` field.  The claim that such values are
always redacted is contradicted by the code at this input. -/
theorem c6_token_equals_not_redacted :
    sanitizeErrorMessage "Upstream 401: token=abc123" =
      "Upstream 401: token=abc123" ∧
    "abc123".data <:+: (sanitizeErrorMessage "Upstream 401: token=abc123").data ∧
    sanitizeErrorMessage "Upstream 401: token: abc123" =
      "Upstream 401: TOKEN_REDACTED" := by
  refine ⟨by decide, ?_, by decide⟩
  exact ⟨"Upstream 401: token=".data, [], by decide⟩

end ImagesGen

